import Mathlib

/-!
Verification of the PoFight engine core.

Shallow embedding of the TypeScript sources:
- `src/src/engine/Constants.ts`   — numeric constants and attack frame data
- `src/src/engine/Fighter.ts`     — per-combatant state machine (`Fighter.update`)
- `src/src/engine/FightManager.ts`— orchestrator hit-detection and win check
- the C# diagnostics helper `MaskValue`

JavaScript numbers are modelled as rationals (ℚ); `performance.now()/1000`
becomes an explicit `now : ℚ` argument of `Fighter.update`; the `setTimeout`
guarded reversions are modelled as explicit guarded step functions.
Features that the repository's test-suites and spec describe but that are
absent from the sources under src/ (wind-up progress, the jump variant) are
modelled from the spec and marked as such in their doc comments.
-/

namespace PoFight

/-! ## Constants (src/src/engine/Constants.ts) -/

def GAME_WIDTH : ℚ := 1920
def GAME_HEIGHT : ℚ := 1080
def GROUND_Y : ℚ := 900
def FIGHTER_WIDTH : ℚ := 100
def FIGHTER_HEIGHT : ℚ := 200
def MOVE_SPEED : ℚ := 400
def MAX_CHARGE_TIME : ℚ := 1
def OVERHEAT_TIME : ℚ := 2

/-- One entry of `ATTACK_FRAME_DATA`. -/
structure AttackFrame where
  damage : ℚ
  duration : ℚ
  recovery : ℚ
  deriving DecidableEq, Repr

/-- The four entries of `ATTACK_FRAME_DATA`. -/
structure FrameData where
  JAB : AttackFrame
  HEAVY_PUNCH : AttackFrame
  KICK_FLICK : AttackFrame
  HEAVY_KICK : AttackFrame
  deriving DecidableEq, Repr

def ATTACK_FRAME_DATA : FrameData :=
  { JAB := ⟨5, 2/10, 1/10⟩
  , HEAVY_PUNCH := ⟨20, 4/10, 3/10⟩
  , KICK_FLICK := ⟨7, 25/100, 15/100⟩
  , HEAVY_KICK := ⟨25, 5/10, 4/10⟩ }

/-! ## Fighter (src/src/engine/Fighter.ts) -/

/-- `FighterState` from Fighter.ts (the variant present under src/ has the two
block heights and no jump state). -/
inductive FighterState where
  | IDLE
  | MOVING
  | CHARGING
  | ATTACKING
  | BLOCKING_HIGH
  | BLOCKING_LOW
  | STUNNED
  | OVERHEATED
  deriving DecidableEq, Repr

/-- `attackType` values: `'PUNCH' | 'KICK' | 'NONE'`. -/
inductive AttackType where
  | PUNCH
  | KICK
  | NONE
  deriving DecidableEq, Repr

/-- `attackHeight` values: `'HIGH' | 'MID' | 'LOW'`. -/
inductive AttackHeight where
  | HIGH
  | MID
  | LOW
  deriving DecidableEq, Repr

/-- The observable fields of a `Fighter` (each is a `Signal` in the source;
a signal's current value is modelled directly, `peek` and `value` both read
it), plus the private `chargeStartTime`. -/
structure Fighter where
  id : String
  x : ℚ
  y : ℚ
  state : FighterState
  health : ℚ
  chargeLevel : ℚ
  attackType : AttackType
  attackHeight : AttackHeight
  facingRight : Bool
  chargeStartTime : ℚ
  deriving DecidableEq, Repr

/-- The `Fighter` constructor: `new Fighter(id, startX)`. -/
def Fighter.construct (id : String) (startX : ℚ) : Fighter :=
  { id := id
  , x := startX
  , y := GROUND_Y
  , state := .IDLE
  , health := 100
  , chargeLevel := 0
  , attackType := .NONE
  , attackHeight := .MID
  , facingRight := true
  , chargeStartTime := 0 }

/-- The per-tick input vector `{x, y, punchHeld, kickHeld}`. -/
structure Input where
  x : ℚ
  y : ℚ
  punchHeld : Bool
  kickHeld : Bool
  deriving DecidableEq, Repr

/-- `isMaxCharge` as computed in `Fighter.executeAttack`
(`chargeDuration >= MAX_CHARGE_TIME && chargeDuration < OVERHEAT_TIME`);
it only selects the audio intensity. -/
def Fighter.isMaxCharge (chargeDuration : ℚ) : Bool :=
  decide (MAX_CHARGE_TIME ≤ chargeDuration ∧ chargeDuration < OVERHEAT_TIME)

/-- `Fighter.executeAttack`: sets `state = 'ATTACKING'`; the sound call has no
state effect and the delayed reset to IDLE is `Fighter.attackAnimationEnd`. -/
def Fighter.executeAttack (f : Fighter) (_chargeDuration : ℚ) : Fighter :=
  { f with state := .ATTACKING }

/-- The guarded `setTimeout` body scheduled by `executeAttack`:
return to IDLE only if still ATTACKING. -/
def Fighter.attackAnimationEnd (f : Fighter) : Fighter :=
  if f.state = .ATTACKING then { f with state := .IDLE } else f

/-- The guarded `setTimeout` body scheduled on overheat:
return to IDLE only if still OVERHEATED. -/
def Fighter.overheatCooldown (f : Fighter) : Fighter :=
  if f.state = .OVERHEATED then { f with state := .IDLE } else f

/-- The guarded stun-recovery `setTimeout` body scheduled by the orchestrator:
return to IDLE only if still STUNNED. -/
def Fighter.stunRecovery (f : Fighter) : Fighter :=
  if f.state = .STUNNED then { f with state := .IDLE } else f

/-- Blocking phase of `Fighter.update` (lines 43-54 of Fighter.ts):
`currentState` is the state captured at the top of `update`. -/
def Fighter.blockPhase (f : Fighter) (currentState : FighterState) (input : Input) : Fighter :=
  if currentState = .IDLE ∨ currentState = .MOVING ∨
     currentState = .BLOCKING_HIGH ∨ currentState = .BLOCKING_LOW then
    if input.y > 1/2 then { f with state := .BLOCKING_HIGH }
    else if input.y < -(1/2) then { f with state := .BLOCKING_LOW }
    else if currentState = .BLOCKING_HIGH ∨ currentState = .BLOCKING_LOW then
      { f with state := .IDLE }
    else f
  else f

/-- Movement phase of `Fighter.update` (lines 59-68 of Fighter.ts);
`isBlocking` was computed from the post-blocking state. -/
def Fighter.movePhase (f1 : Fighter) (currentState : FighterState) (isBlocking : Bool)
    (input : Input) (dt : ℚ) : Fighter :=
  if (currentState = .IDLE ∨ currentState = .MOVING) ∧ ¬ isBlocking then
    if input.x ≠ 0 then
      { f1 with state := .MOVING,
                x := f1.x + input.x * MOVE_SPEED * dt,
                facingRight := input.x > 0 }
    else if currentState = .MOVING then { f1 with state := .IDLE }
    else f1
  else f1

/-- Charge/release phase of `Fighter.update` (lines 70-106 of Fighter.ts). -/
def Fighter.chargePhase (f2 : Fighter) (currentState : FighterState) (isBlocking : Bool)
    (now : ℚ) (input : Input) : Fighter :=
  if input.punchHeld ∨ input.kickHeld then
    -- Start charging if possible
    let f3 :=
      if ¬ (currentState = .CHARGING ∨ currentState = .OVERHEATED ∨
            currentState = .ATTACKING) ∧ ¬ isBlocking then
        { f2 with state := .CHARGING,
                  chargeStartTime := now,
                  chargeLevel := 0,
                  attackType := if input.punchHeld then .PUNCH else .KICK }
      else f2
    -- Continue charging
    if currentState = .CHARGING then
      let duration := now - f3.chargeStartTime
      let f4 := { f3 with chargeLevel := min (duration / MAX_CHARGE_TIME) 1 }
      -- Overheat check
      if duration > OVERHEAT_TIME then
        { f4 with state := .OVERHEATED, chargeLevel := 0 }
      else f4
    else f3
  else
    -- Release logic
    if currentState = .CHARGING then
      let duration := now - f2.chargeStartTime
      -- Determine modifier based on input.y AT RELEASE time
      let m1 : AttackHeight := if input.y > 1/2 then .HIGH else .MID
      let modifier : AttackHeight := if input.y < -(1/2) then .LOW else m1
      let f5 := { f2 with attackHeight := modifier }
      let f6 := f5.executeAttack duration
      { f6 with chargeLevel := 0 }
    else f2

/-- `Fighter.update(dt, input)` from Fighter.ts, with `performance.now()/1000`
made an explicit `now` argument (seconds).  The source's sequential mutations
of `this` become the chained fighters `f1`, `f2`; `currentState` is captured
once at entry and `isBlocking` right after the blocking logic, exactly as in
the source. -/
def Fighter.update (f : Fighter) (now dt : ℚ) (input : Input) : Fighter :=
  let currentState := f.state
  let f1 := f.blockPhase currentState input
  -- Check if currently blocking to restrict movement/charge
  let isBlocking := f1.state == .BLOCKING_HIGH || f1.state == .BLOCKING_LOW
  let f2 := f1.movePhase currentState isBlocking input dt
  f2.chargePhase currentState isBlocking now input

/-! ## Orchestrator (src/src/engine/FightManager.ts) -/

/-- The local `chipDamage` constant of `checkHitForAttacker`. -/
def chipDamage : ℚ := 2

/-- Damage selected by attack type and the charge level read by the
orchestrator (`chargeLevel >= 0.9` picks the heavy tier). -/
def tierDamage (attackType : AttackType) (chargeLevel : ℚ) : ℚ :=
  match attackType with
  | .PUNCH =>
      if chargeLevel ≥ 9/10 then ATTACK_FRAME_DATA.HEAVY_PUNCH.damage
      else ATTACK_FRAME_DATA.JAB.damage
  | .KICK =>
      if chargeLevel ≥ 9/10 then ATTACK_FRAME_DATA.HEAVY_KICK.damage
      else ATTACK_FRAME_DATA.KICK_FLICK.damage
  | .NONE => 0

/-- `FightManager.checkHitForAttacker(attacker, defender)`: returns the
updated `(attacker, defender)` pair.  The stun-recovery `setTimeout` it
schedules is `Fighter.stunRecovery` above. -/
def checkHitForAttacker (attacker defender : Fighter) : Fighter × Fighter :=
  -- Only check hits if attacker is in ATTACKING state
  if attacker.state ≠ .ATTACKING then (attacker, defender) else
  -- Check if in range
  let distance := |attacker.x - defender.x|
  let attackRange := FIGHTER_WIDTH * (3/2)
  if distance > attackRange then (attacker, defender) else
  -- Check if defender is blocking correctly
  let attackHeight := attacker.attackHeight
  let defenderState := defender.state
  let isBlockedHigh := defenderState = .BLOCKING_HIGH ∧ attackHeight = .HIGH
  let isBlockedLow := defenderState = .BLOCKING_LOW ∧ attackHeight = .LOW
  let isBlockedMid := (defenderState = .BLOCKING_HIGH ∨ defenderState = .BLOCKING_LOW) ∧
                      attackHeight = .MID
  if isBlockedHigh ∨ isBlockedLow then
    -- Perfect block - no damage
    (attacker, defender)
  else if isBlockedMid then
    -- Mid attacks do chip damage through blocks
    (attacker, { defender with health := max 0 (defender.health - chipDamage) })
  else
    -- Calculate damage based on attack type and charge, apply, stun defender,
    -- reset attacker to prevent multi-hit
    let baseDamage := tierDamage attacker.attackType attacker.chargeLevel
    ({ attacker with state := .IDLE, attackType := .NONE },
     { defender with health := max 0 (defender.health - baseDamage), state := .STUNNED })

/-- `FightManager.checkHits`: player attacks cpu, then cpu attacks player. -/
def checkHits (player cpu : Fighter) : Fighter × Fighter :=
  let r1 := checkHitForAttacker player cpu
  let r2 := checkHitForAttacker r1.2 r1.1
  (r2.2, r2.1)

/-- Match outcome reported by the orchestrator's win check. -/
inductive MatchOutcome where
  | Win
  | Loss
  deriving DecidableEq, Repr

/-- Step 5 of `FightManager.update`:
`if (cpu.health <= 0) handleWin(); else if (player.health <= 0) handleLoss();`. -/
def winCheck (player cpu : Fighter) : Option MatchOutcome :=
  if cpu.health ≤ 0 then some .Win
  else if player.health ≤ 0 then some .Loss
  else none

/-- The two fighters as constructed by `FightManager` (player at 400 facing
right, cpu at 1200 with `facingRight` set to false). -/
def initialMatch : Fighter × Fighter :=
  (Fighter.construct "player" 400,
   { Fighter.construct "cpu" 1200 with facingRight := false })

/-! ## Branch lemmas for `checkHitForAttacker` -/

/-- Height-matched block branch: the call returns both fighters unchanged. -/
lemma checkHit_perfect_block (a d : Fighter)
    (hA : a.state = .ATTACKING)
    (hR : |a.x - d.x| ≤ FIGHTER_WIDTH * (3/2))
    (hb : (d.state = .BLOCKING_HIGH ∧ a.attackHeight = .HIGH) ∨
          (d.state = .BLOCKING_LOW ∧ a.attackHeight = .LOW)) :
    checkHitForAttacker a d = (a, d) := by
  simp only [checkHitForAttacker]
  rw [if_neg (by simp [hA]), if_neg (not_lt.mpr hR), if_pos hb]

/-- Chip branch: MID attack against either blocking state subtracts the chip
amount (clamped at 0) and touches nothing else. -/
lemma checkHit_chip (a d : Fighter)
    (hA : a.state = .ATTACKING)
    (hR : |a.x - d.x| ≤ FIGHTER_WIDTH * (3/2))
    (hb : d.state = .BLOCKING_HIGH ∨ d.state = .BLOCKING_LOW)
    (hm : a.attackHeight = .MID) :
    checkHitForAttacker a d =
      (a, { d with health := max 0 (d.health - chipDamage) }) := by
  simp only [checkHitForAttacker]
  rw [if_neg (by simp [hA]), if_neg (not_lt.mpr hR),
      if_neg (by rcases hb with h | h <;> simp [h, hm]), if_pos ⟨hb, hm⟩]

/-- Unblocked / mismatched branch: full tier damage (clamped at 0), defender
stunned, attacker reset to IDLE with `attackType` cleared. -/
lemma checkHit_full (a d : Fighter)
    (hA : a.state = .ATTACKING)
    (hR : |a.x - d.x| ≤ FIGHTER_WIDTH * (3/2))
    (h1 : ¬ ((d.state = .BLOCKING_HIGH ∧ a.attackHeight = .HIGH) ∨
             (d.state = .BLOCKING_LOW ∧ a.attackHeight = .LOW)))
    (h2 : ¬ ((d.state = .BLOCKING_HIGH ∨ d.state = .BLOCKING_LOW) ∧
             a.attackHeight = .MID)) :
    checkHitForAttacker a d =
      ({ a with state := .IDLE, attackType := .NONE },
       { d with health := max 0 (d.health - tierDamage a.attackType a.chargeLevel),
                state := .STUNNED }) := by
  simp only [checkHitForAttacker]
  rw [if_neg (by simp [hA]), if_neg (not_lt.mpr hR), if_neg h1, if_neg h2]

/-! ## C2 — three-way hit classification -/

/-- C2: for an ATTACKING attacker in extended range, hit-detection classifies
exactly three ways: a height-matched block leaves everything unchanged; a MID
attack against either blocking state deals exactly the chip amount (clamped at
0) and does not stun; any other case subtracts the full tier damage, stuns the
defender, and immediately resets the attacker to IDLE with `attackType`
cleared. -/
theorem hit_resolution_three_way (a d : Fighter)
    (hA : a.state = .ATTACKING)
    (hR : |a.x - d.x| ≤ FIGHTER_WIDTH * (3/2)) :
    (((d.state = .BLOCKING_HIGH ∧ a.attackHeight = .HIGH) ∨
      (d.state = .BLOCKING_LOW ∧ a.attackHeight = .LOW)) →
        checkHitForAttacker a d = (a, d)) ∧
    ((d.state = .BLOCKING_HIGH ∨ d.state = .BLOCKING_LOW) → a.attackHeight = .MID →
        checkHitForAttacker a d =
          (a, { d with health := max 0 (d.health - chipDamage) })) ∧
    (¬ ((d.state = .BLOCKING_HIGH ∧ a.attackHeight = .HIGH) ∨
        (d.state = .BLOCKING_LOW ∧ a.attackHeight = .LOW)) →
     ¬ ((d.state = .BLOCKING_HIGH ∨ d.state = .BLOCKING_LOW) ∧ a.attackHeight = .MID) →
        checkHitForAttacker a d =
          ({ a with state := .IDLE, attackType := .NONE },
           { d with health := max 0 (d.health - tierDamage a.attackType a.chargeLevel),
                    state := .STUNNED })) :=
  ⟨fun hb => checkHit_perfect_block a d hA hR hb,
   fun hb hm => checkHit_chip a d hA hR hb hm,
   fun h1 h2 => checkHit_full a d hA hR h1 h2⟩

/-- Witness for C2: concrete blocked-high instance evaluates as the theorem
says. -/
theorem hit_resolution_three_way_witness :
    checkHitForAttacker
      { Fighter.construct "a" 400 with state := .ATTACKING, attackHeight := .HIGH }
      { Fighter.construct "d" 450 with state := .BLOCKING_HIGH } =
      ({ Fighter.construct "a" 400 with state := .ATTACKING, attackHeight := .HIGH },
       { Fighter.construct "d" 450 with state := .BLOCKING_HIGH }) := by
  have h := (hit_resolution_three_way
      { Fighter.construct "a" 400 with state := .ATTACKING, attackHeight := .HIGH }
      { Fighter.construct "d" 450 with state := .BLOCKING_HIGH }
      (by norm_num [Fighter.construct])
      (by norm_num [Fighter.construct, FIGHTER_WIDTH])).1
  exact h (by norm_num [Fighter.construct])

/-! ## C9 — win check evaluates the cpu's health first -/

/-- C9: if after a tick both healths are ≤ 0, the orchestrator's win check
reports a player victory (`handleWin`), never `handleLoss`. -/
theorem win_check_prefers_player_victory (player cpu : Fighter)
    (hcpu : cpu.health ≤ 0) (_hplayer : player.health ≤ 0) :
    winCheck player cpu = some .Win ∧ winCheck player cpu ≠ some .Loss := by
  refine ⟨?_, ?_⟩ <;> simp [winCheck, hcpu]

/-- Witness for C9 at a concrete double-KO state. -/
theorem win_check_prefers_player_victory_witness :
    winCheck { Fighter.construct "player" 400 with health := 0 }
             { Fighter.construct "cpu" 1200 with health := 0 } = some .Win ∧
    winCheck { Fighter.construct "player" 400 with health := 0 }
             { Fighter.construct "cpu" 1200 with health := 0 } ≠ some .Loss :=
  win_check_prefers_player_victory _ _ (by norm_num) (by norm_num)

/-! ## C8 — block/chip branches leave the attacker untouched; chip repeats -/

/-- Iterate the per-pair hit check, feeding the updated pair back in, as the
orchestrator does on consecutive ticks in which neither fighter's `update`
changes anything. -/
def iterHit : Nat → Fighter × Fighter → Fighter × Fighter
  | 0, s => s
  | n + 1, s => iterHit n (checkHitForAttacker s.1 s.2)

lemma max_zero_sub_shift (x c : ℚ) (hc : 0 ≤ c) :
    max 0 (max 0 x - c) = max 0 (x - c) := by
  rcases le_total x 0 with h | h
  · rw [max_eq_left h, zero_sub, max_eq_left (by linarith), max_eq_left (by linarith)]
  · rw [max_eq_right h]

lemma iterHit_chip_run (a : Fighter) (hA : a.state = .ATTACKING)
    (hm : a.attackHeight = .MID) :
    ∀ (n : ℕ) (d : Fighter), |a.x - d.x| ≤ FIGHTER_WIDTH * (3/2) →
      (d.state = .BLOCKING_HIGH ∨ d.state = .BLOCKING_LOW) → 0 ≤ d.health →
      iterHit n (a, d) = (a, { d with health := max 0 (d.health - chipDamage * n) }) := by
  intro n
  induction n with
  | zero =>
      intro d _ _ h0
      simp only [iterHit, Nat.cast_zero, mul_zero, sub_zero, max_eq_right h0]
  | succ n ih =>
      intro d hR hb h0
      have hstep := checkHit_chip a d hA hR hb hm
      simp only [iterHit, hstep]
      rw [ih { d with health := max 0 (d.health - chipDamage) }
            (by simpa using hR) (by simpa using hb) (le_max_left _ _)]
      have : max 0 (max 0 (d.health - chipDamage) - chipDamage * n) =
          max 0 (d.health - chipDamage * (n + 1 : ℕ)) := by
        rw [max_zero_sub_shift _ _ (mul_nonneg (by norm_num [chipDamage]) (Nat.cast_nonneg n))]
        push_cast
        ring_nf
      simp only [this]

/-- C8: on the perfect-block and chip branches the attacker's whole record is
returned unchanged, and consequently a MID attack against a blocking defender
in range chips again on every further tick: after `n` iterations the defender
has lost `n` chip amounts (clamped at 0) and the attacker is still exactly the
same ATTACKING fighter. -/
theorem block_branches_keep_attacker (a d : Fighter)
    (hA : a.state = .ATTACKING)
    (hR : |a.x - d.x| ≤ FIGHTER_WIDTH * (3/2)) :
    (((d.state = .BLOCKING_HIGH ∧ a.attackHeight = .HIGH) ∨
      (d.state = .BLOCKING_LOW ∧ a.attackHeight = .LOW) ∨
      ((d.state = .BLOCKING_HIGH ∨ d.state = .BLOCKING_LOW) ∧ a.attackHeight = .MID)) →
        (checkHitForAttacker a d).1 = a) ∧
    ((d.state = .BLOCKING_HIGH ∨ d.state = .BLOCKING_LOW) → a.attackHeight = .MID →
      0 ≤ d.health → ∀ n : ℕ,
        iterHit n (a, d) = (a, { d with health := max 0 (d.health - chipDamage * n) })) := by
  constructor
  · rintro (hb | hb | ⟨hb, hm⟩)
    · rw [checkHit_perfect_block a d hA hR (Or.inl hb)]
    · rw [checkHit_perfect_block a d hA hR (Or.inr hb)]
    · rw [checkHit_chip a d hA hR hb hm]
  · intro hb hm h0 n
    exact iterHit_chip_run a hA hm n d hR hb h0

/-- Witness for C8: a MID punch against a BLOCKING_HIGH defender chips 2 per
tick; after 3 ticks the defender is at 94 and the attacker is unchanged. -/
theorem block_branches_keep_attacker_witness :
    iterHit 3
      ({ Fighter.construct "a" 400 with state := .ATTACKING },
       { Fighter.construct "d" 450 with state := .BLOCKING_HIGH }) =
      ({ Fighter.construct "a" 400 with state := .ATTACKING },
       { Fighter.construct "d" 450 with state := .BLOCKING_HIGH, health := 94 }) := by
  have h := (block_branches_keep_attacker
      { Fighter.construct "a" 400 with state := .ATTACKING }
      { Fighter.construct "d" 450 with state := .BLOCKING_HIGH }
      (by norm_num [Fighter.construct])
      (by norm_num [Fighter.construct, FIGHTER_WIDTH])).2
      (by norm_num [Fighter.construct]) (by norm_num [Fighter.construct])
      (by norm_num [Fighter.construct]) 3
  rw [h]
  norm_num [Fighter.construct, chipDamage]

/-! ## Update lemmas for the charge logic -/

/-- A fighter that is CHARGING and still holds an attack button: the tick
either overheats (strictly past `OVERHEAT_TIME`) or writes the clamped charge
level; nothing else changes. -/
lemma update_charging_held (f : Fighter) (now dt : ℚ) (inp : Input)
    (hs : f.state = .CHARGING)
    (hheld : inp.punchHeld = true ∨ inp.kickHeld = true) :
    f.update now dt inp =
      if now - f.chargeStartTime > OVERHEAT_TIME then
        { f with state := .OVERHEATED, chargeLevel := 0 }
      else
        { f with chargeLevel := min ((now - f.chargeStartTime) / MAX_CHARGE_TIME) 1 } := by
  rcases hheld with h | h <;>
    simp [Fighter.update, Fighter.blockPhase, Fighter.movePhase, Fighter.chargePhase, hs, h]

/-- An OVERHEATED fighter is left exactly as it is by `update`, whatever the
input: blocking, movement, charge start, charge continuation and release are
all gated away. -/
lemma update_overheated_id (f : Fighter) (now dt : ℚ) (inp : Input)
    (hs : f.state = .OVERHEATED) :
    f.update now dt inp = f := by
  simp [Fighter.update, Fighter.blockPhase, Fighter.movePhase, Fighter.chargePhase, hs]

/-- Fold a list of `(now, dt, input)` ticks through `Fighter.update`. -/
def updateSeq (f : Fighter) : List (ℚ × ℚ × Input) → Fighter
  | [] => f
  | (now, dt, inp) :: rest => updateSeq (f.update now dt inp) rest

lemma updateSeq_overheated (f : Fighter) (hs : f.state = .OVERHEATED) :
    ∀ l : List (ℚ × ℚ × Input), updateSeq f l = f := by
  intro l
  induction l with
  | nil => rfl
  | cons e rest ih =>
      obtain ⟨now, dt, inp⟩ := e
      simp only [updateSeq, update_overheated_id f now dt inp hs, ih]

/-! ## Concrete charge scenarios -/

/-- Input: punch held, stick neutral. -/
def holdPunch : Input := ⟨0, 0, true, false⟩

/-- Input: everything released, stick neutral. -/
def releaseNeutral : Input := ⟨0, 0, false, false⟩

/-- Fresh fighter after the tick (at `now = 0`) that starts a punch charge. -/
def chargeStartState : Fighter :=
  (Fighter.construct "player" 400).update 0 (1/60) holdPunch

/-- The same fighter after holding through `now = 21/10` (past OVERHEAT_TIME). -/
def overheldState : Fighter :=
  chargeStartState.update (21/10) (1/60) holdPunch

/-! ## C3 — chargeLevel = clamp(t / MAX_CHARGE_TIME, 0, 1) while charging -/

/-- C3 counterexample: at `t = 21/10` the button has been held continuously
from a fresh charge start, but the overheat branch has zeroed `chargeLevel`,
so it does not equal `clamp(t / MAX_CHARGE_TIME, 0, 1) = 1`. -/
theorem charge_clamp_counterexample :
    chargeStartState.state = .CHARGING ∧
    chargeStartState.chargeStartTime = 0 ∧
    overheldState.chargeLevel = 0 ∧
    max 0 (min ((21/10 - 0) / MAX_CHARGE_TIME) 1) = 1 ∧
    overheldState.chargeLevel ≠ max 0 (min ((21/10 - 0) / MAX_CHARGE_TIME) 1) := by
  norm_num +decide [chargeStartState, overheldState, holdPunch, Fighter.construct,
    Fighter.update, Fighter.blockPhase, Fighter.movePhase, Fighter.chargePhase, MAX_CHARGE_TIME, OVERHEAT_TIME]

/-- C3 (amended): while the fighter is still CHARGING and holding, and the
elapsed time has not yet exceeded `OVERHEAT_TIME`, the tick writes
`chargeLevel = clamp(t / MAX_CHARGE_TIME, 0, 1)`, and exactly `1` at
`t = MAX_CHARGE_TIME`. -/
theorem charge_level_clamp (f : Fighter) (now dt t : ℚ) (inp : Input)
    (hs : f.state = .CHARGING)
    (hheld : inp.punchHeld = true ∨ inp.kickHeld = true)
    (ht : t = now - f.chargeStartTime)
    (h0 : 0 ≤ t) (hoh : t ≤ OVERHEAT_TIME) :
    (f.update now dt inp).chargeLevel = max 0 (min (t / MAX_CHARGE_TIME) 1) ∧
    (t = MAX_CHARGE_TIME → (f.update now dt inp).chargeLevel = 1) := by
  rw [update_charging_held f now dt inp hs hheld, if_neg (by rw [← ht]; exact not_lt.mpr hoh)]
  have hnn : 0 ≤ min (t / MAX_CHARGE_TIME) 1 :=
    le_min (div_nonneg h0 (by norm_num [MAX_CHARGE_TIME])) (by norm_num)
  constructor
  · simp only [← ht, max_eq_right hnn]
  · intro h1
    simp only [← ht, h1, MAX_CHARGE_TIME, div_one, min_self]

/-- Witness for C3's amended theorem at `t = 1/2` on the concrete charging
fighter. -/
theorem charge_level_clamp_witness :
    (chargeStartState.update (1/2) (1/60) holdPunch).chargeLevel =
      max 0 (min ((1/2) / MAX_CHARGE_TIME) 1) :=
  (charge_level_clamp chargeStartState (1/2) (1/60) (1/2) holdPunch
    (by norm_num +decide [chargeStartState, holdPunch, Fighter.construct, Fighter.update,
      Fighter.blockPhase, Fighter.movePhase, Fighter.chargePhase])
    (Or.inl rfl)
    (by norm_num +decide [chargeStartState, holdPunch, Fighter.construct, Fighter.update,
      Fighter.blockPhase, Fighter.movePhase, Fighter.chargePhase])
    (by norm_num) (by norm_num [OVERHEAT_TIME])).1

/-! ## C4 — overheat forces OVERHEATED/0 and locks out charging -/

/-- C4: holding a charge strictly past `OVERHEAT_TIME` forces
`state = OVERHEATED` and `chargeLevel = 0`; from then on any sequence of held
ticks leaves the fighter untouched (no new charge, chargeLevel stays 0), until
the guarded cooldown fires and returns it to IDLE. -/
theorem overheat_locks_out_charging (f : Fighter) (now dt : ℚ) (inp : Input)
    (hheld : inp.punchHeld = true ∨ inp.kickHeld = true) :
    (f.state = .CHARGING → now - f.chargeStartTime > OVERHEAT_TIME →
       (f.update now dt inp).state = .OVERHEATED ∧ (f.update now dt inp).chargeLevel = 0) ∧
    (f.state = .OVERHEATED → f.update now dt inp = f) ∧
    (f.state = .OVERHEATED →
       ∀ l : List (ℚ × ℚ × Input),
         (∀ e ∈ l, e.2.2.punchHeld = true ∨ e.2.2.kickHeld = true) →
         updateSeq f l = f) ∧
    (f.state = .OVERHEATED → f.overheatCooldown = { f with state := .IDLE }) := by
  refine ⟨?_, ?_, ?_, ?_⟩
  · intro hs hover
    rw [update_charging_held f now dt inp hs hheld, if_pos hover]
    exact ⟨rfl, rfl⟩
  · intro hs
    exact update_overheated_id f now dt inp hs
  · intro hs l _
    exact updateSeq_overheated f hs l
  · intro hs
    simp [Fighter.overheatCooldown, hs]

/-- Witness for C4 on the concrete over-held fighter: two more held ticks
change nothing, and the cooldown then returns it to IDLE. -/
theorem overheat_locks_out_charging_witness :
    (overheldState.update (22/10) (1/60) holdPunch = overheldState) ∧
    (updateSeq overheldState [(23/10, 1/60, holdPunch), (24/10, 1/60, holdPunch)] =
      overheldState) ∧
    overheldState.overheatCooldown = { overheldState with state := .IDLE } := by
  have hover : overheldState.state = .OVERHEATED := by
    norm_num +decide [overheldState, chargeStartState, holdPunch, Fighter.construct,
      Fighter.update, Fighter.blockPhase, Fighter.movePhase, Fighter.chargePhase,
      OVERHEAT_TIME, MAX_CHARGE_TIME]
  have h := overheat_locks_out_charging overheldState (22/10) (1/60) holdPunch (Or.inl rfl)
  exact ⟨h.2.1 hover,
         h.2.2.1 hover _ (by intro e he; fin_cases he <;> exact Or.inl rfl),
         h.2.2.2 hover⟩

/-! ## C1 — the release tick zeroes chargeLevel before the orchestrator reads it -/

/-- The charging fighter after holding punch through `now = 1`
(`chargeLevel = 1`, a full charge). -/
def chargedState : Fighter :=
  chargeStartState.update 1 (1/60) holdPunch

/-- The same fighter on the release tick (still at `now = 1`, neutral stick):
`Fighter.update` runs `executeAttack` and then `chargeLevel.value = 0`. -/
def releasedState : Fighter :=
  chargedState.update 1 (1/60) releaseNeutral

/-- An IDLE defender standing at x = 450, inside the extended attack range of
an attacker at x = 400. -/
def idleDefender : Fighter :=
  { Fighter.construct "cpu" 1200 with x := 450 }

/-- C1 (code bug): the captured charge at release was `1 ≥ 0.9`, yet because
`Fighter.update` zeroes `chargeLevel` on the release tick — before
`FightManager.update` reaches hit-detection in the same tick — the
orchestrator reads `chargeLevel = 0` and deals the light tier
(`JAB`, 5), not `HEAVY_PUNCH` (20).  The repository's own test
("should preserve chargeLevel during ATTACKING state for damage calc")
expects the charge to survive release. -/
theorem charge_reset_before_damage :
    chargedState.chargeLevel = 1 ∧
    chargedState.attackType = .PUNCH ∧
    releasedState.state = .ATTACKING ∧
    releasedState.chargeLevel = 0 ∧
    (checkHitForAttacker releasedState idleDefender).2.health =
      100 - ATTACK_FRAME_DATA.JAB.damage ∧
    (checkHitForAttacker releasedState idleDefender).2.health ≠
      100 - ATTACK_FRAME_DATA.HEAVY_PUNCH.damage := by
  have hcharged : chargedState =
      { Fighter.construct "player" 400 with
          state := .CHARGING, chargeStartTime := 0, attackType := .PUNCH,
          chargeLevel := 1 } := by
    norm_num +decide [chargedState, chargeStartState, holdPunch, Fighter.construct,
      Fighter.update, Fighter.blockPhase, Fighter.movePhase, Fighter.chargePhase,
      MAX_CHARGE_TIME, OVERHEAT_TIME]
  have hreleased : releasedState =
      { Fighter.construct "player" 400 with
          state := .ATTACKING, chargeStartTime := 0, attackType := .PUNCH,
          chargeLevel := 0 } := by
    rw [releasedState, hcharged]
    norm_num +decide [releaseNeutral, Fighter.construct, Fighter.update,
      Fighter.blockPhase, Fighter.movePhase, Fighter.chargePhase,
      Fighter.executeAttack, MAX_CHARGE_TIME, OVERHEAT_TIME]
  refine ⟨by rw [hcharged], by rw [hcharged], by rw [hreleased], by rw [hreleased], ?_, ?_⟩ <;>
    rw [hreleased] <;>
    norm_num +decide [checkHitForAttacker, idleDefender, Fighter.construct,
      tierDamage, ATTACK_FRAME_DATA, FIGHTER_WIDTH]

/-! ## C7 — health stays in [0, 100] in every reachable match state -/

lemma blockPhase_health (f : Fighter) (cs : FighterState) (inp : Input) :
    (f.blockPhase cs inp).health = f.health := by
  simp only [Fighter.blockPhase]
  repeat' split
  all_goals rfl

lemma movePhase_health (f : Fighter) (cs : FighterState) (ib : Bool) (inp : Input) (dt : ℚ) :
    (f.movePhase cs ib inp dt).health = f.health := by
  simp only [Fighter.movePhase]
  repeat' split
  all_goals rfl

lemma chargePhase_health (f : Fighter) (cs : FighterState) (ib : Bool) (now : ℚ) (inp : Input) :
    (f.chargePhase cs ib now inp).health = f.health := by
  simp only [Fighter.chargePhase, Fighter.executeAttack]
  repeat' split
  all_goals rfl

/-- `Fighter.update` never writes the health signal. -/
lemma update_health (f : Fighter) (now dt : ℚ) (inp : Input) :
    (f.update now dt inp).health = f.health := by
  simp only [Fighter.update, chargePhase_health, movePhase_health, blockPhase_health]

/-- Hit-detection never writes the attacker's health. -/
lemma checkHit_fst_health (a d : Fighter) :
    (checkHitForAttacker a d).1.health = a.health := by
  simp only [checkHitForAttacker]
  repeat' split
  all_goals rfl

lemma tierDamage_nonneg (t : AttackType) (c : ℚ) : 0 ≤ tierDamage t c := by
  rcases t <;> simp only [tierDamage] <;> try split
  all_goals norm_num [ATTACK_FRAME_DATA]

/-- Every damage application is `max 0 (health − damage)` with nonnegative
damage, so the defender's health stays in range. -/
lemma checkHit_snd_health_bounds (a d : Fighter)
    (h0 : 0 ≤ d.health) (h1 : d.health ≤ 100) :
    0 ≤ (checkHitForAttacker a d).2.health ∧
    (checkHitForAttacker a d).2.health ≤ 100 := by
  have key : ∀ dmg : ℚ, 0 ≤ dmg →
      0 ≤ max 0 (d.health - dmg) ∧ max 0 (d.health - dmg) ≤ 100 := by
    intro dmg hdmg
    exact ⟨le_max_left _ _, max_le (by norm_num) (by linarith)⟩
  simp only [checkHitForAttacker]
  repeat' split
  · exact ⟨h0, h1⟩
  · exact ⟨h0, h1⟩
  · exact ⟨h0, h1⟩
  · exact key chipDamage (by norm_num [chipDamage])
  · exact key _ (tierDamage_nonneg _ _)

/-- One orchestrator-level step of a match, as the claim ranges over them:
either fighter's `update`, or hit-detection with either fighter attacking. -/
inductive MatchStep : Fighter × Fighter → Fighter × Fighter → Prop where
  | playerUpd (s : Fighter × Fighter) (now dt : ℚ) (inp : Input) :
      MatchStep s (s.1.update now dt inp, s.2)
  | cpuUpd (s : Fighter × Fighter) (now dt : ℚ) (inp : Input) :
      MatchStep s (s.1, s.2.update now dt inp)
  | hitPlayerAttacks (s : Fighter × Fighter) :
      MatchStep s (checkHitForAttacker s.1 s.2)
  | hitCpuAttacks (s : Fighter × Fighter) :
      MatchStep s ((checkHitForAttacker s.2 s.1).2, (checkHitForAttacker s.2 s.1).1)

/-- States reachable from the freshly constructed match. -/
def Reachable (s : Fighter × Fighter) : Prop :=
  Relation.ReflTransGen MatchStep initialMatch s

/-- C7: both fighters start at health 100, and in every reachable state of the
match each fighter's health lies in [0, 100] (damage clamps at 0 and health
never goes below 0). -/
theorem health_always_in_range (s : Fighter × Fighter) (h : Reachable s) :
    initialMatch.1.health = 100 ∧ initialMatch.2.health = 100 ∧
    (0 ≤ s.1.health ∧ s.1.health ≤ 100) ∧ (0 ≤ s.2.health ∧ s.2.health ≤ 100) := by
  refine ⟨rfl, rfl, ?_⟩
  induction h with
  | refl => norm_num [initialMatch, Fighter.construct]
  | tail hR hstep ih =>
      cases hstep with
      | playerUpd now dt inp =>
          exact ⟨by rw [update_health]; exact ih.1, ih.2⟩
      | cpuUpd now dt inp =>
          exact ⟨ih.1, by rw [update_health]; exact ih.2⟩
      | hitPlayerAttacks =>
          exact ⟨by rw [checkHit_fst_health]; exact ih.1,
                 checkHit_snd_health_bounds _ _ ih.2.1 ih.2.2⟩
      | hitCpuAttacks =>
          exact ⟨checkHit_snd_health_bounds _ _ ih.1.1 ih.1.2,
                 by rw [checkHit_fst_health]; exact ih.2⟩

/-- Witness for C7: the state after one player-attacks hit-detection step from
construction is reachable and satisfies the bounds. -/
theorem health_always_in_range_witness :
    (0 ≤ (checkHitForAttacker initialMatch.1 initialMatch.2).1.health ∧
     (checkHitForAttacker initialMatch.1 initialMatch.2).1.health ≤ 100) ∧
    (0 ≤ (checkHitForAttacker initialMatch.1 initialMatch.2).2.health ∧
     (checkHitForAttacker initialMatch.1 initialMatch.2).2.health ≤ 100) :=
  (health_always_in_range (checkHitForAttacker initialMatch.1 initialMatch.2)
    (Relation.ReflTransGen.single (MatchStep.hitPlayerAttacks initialMatch))).2.2

/-! ## C10 — the diagnostics endpoint's value masking -/

/-- The fixed mask character of the diagnostics `MaskValue` helper. -/
def maskChar : Char := '*'

/-- `MaskValue` from the C# diagnostics program: `null` passes through;
null-or-empty or length ≤ 6 values collapse to `"***"`; longer values keep
their first 3 and last 3 characters and replace the interior with `'*'`. -/
def MaskValue (value : Option String) : Option String :=
  match value with
  | none => none
  | some v =>
    if v = "" ∨ v.length ≤ 6 then some "***"
    else
      let visible : Nat := 3
      some (String.mk (v.data.take visible ++
        List.replicate (v.length - visible * 2) maskChar ++
        v.data.drop (v.length - visible)))

/-- C10: a value of length ≤ 6 is fully masked (the constant `"***"`, which
reveals none of its characters); a longer value is masked to a string of the
same length that keeps exactly the first 3 and last 3 characters and has the
fixed mask character at every interior position. -/
theorem mask_value_masks (v : String) :
    (v.length ≤ 6 → MaskValue (some v) = some "***") ∧
    (6 < v.length →
      ∃ w, MaskValue (some v) = some w ∧
        w.length = v.length ∧
        w.data.take 3 = v.data.take 3 ∧
        w.data.drop (v.length - 3) = v.data.drop (v.length - 3) ∧
        ∀ i, 3 ≤ i → i < v.length - 3 → w.data[i]? = some maskChar) := by
  constructor
  · intro h6
    simp [MaskValue, h6]
  · intro h6
    have hlen : v.length = v.data.length := rfl
    have h6d : 6 < v.data.length := hlen ▸ h6
    have hcond : ¬ (v = "" ∨ v.length ≤ 6) := by
      rintro (rfl | hle)
      · exact absurd h6 (by decide)
      · omega
    refine ⟨_, by rw [MaskValue]; rw [if_neg hcond], ?_, ?_, ?_, ?_⟩
    · show (v.data.take 3 ++ List.replicate (v.length - 3 * 2) maskChar ++
        v.data.drop (v.length - 3)).length = v.length
      simp only [List.length_append, List.length_take, List.length_replicate,
        List.length_drop, hlen]
      omega
    · show (v.data.take 3 ++ List.replicate (v.length - 3 * 2) maskChar ++
        v.data.drop (v.length - 3)).take 3 = v.data.take 3
      rw [List.append_assoc]
      exact List.take_left' (by rw [List.length_take]; omega)
    · show (v.data.take 3 ++ List.replicate (v.length - 3 * 2) maskChar ++
        v.data.drop (v.length - 3)).drop (v.length - 3) = v.data.drop (v.length - 3)
      exact List.drop_left' (by
        simp only [List.length_append, List.length_take, List.length_replicate, hlen]
        omega)
    · intro i h3 hi
      have hid : i < v.data.length - 3 := by omega
      show (v.data.take 3 ++ List.replicate (v.length - 3 * 2) maskChar ++
        v.data.drop (v.length - 3))[i]? = some maskChar
      rw [List.append_assoc,
        List.getElem?_append_right (by rw [List.length_take]; omega),
        List.getElem?_append_left (by
          rw [List.length_replicate, List.length_take, hlen]
          omega),
        List.getElem?_replicate]
      rw [if_pos (by rw [List.length_take, hlen]; omega)]

/-- Witness for C10 at the concrete values `"secret"` (length 6) and
`"ABCDEFGHIJ"` (length 10). -/
theorem mask_value_masks_witness :
    MaskValue (some "secret") = some "***" ∧
    (∃ w, MaskValue (some "ABCDEFGHIJ") = some w ∧
      w.length = "ABCDEFGHIJ".length ∧
      w.data.take 3 = "ABCDEFGHIJ".data.take 3 ∧
      w.data.drop ("ABCDEFGHIJ".length - 3) = "ABCDEFGHIJ".data.drop ("ABCDEFGHIJ".length - 3) ∧
      ∀ i, 3 ≤ i → i < "ABCDEFGHIJ".length - 3 → w.data[i]? = some maskChar) :=
  ⟨(mask_value_masks "secret").1 (by decide),
   (mask_value_masks "ABCDEFGHIJ").2 (by decide)⟩

/-! ## C5 — wind-up progress (modelled from the spec) -/

/-- Modelled from the spec: the `WIND_UP_TIME` constant is imported by the
repository's test-suites from Constants.ts but is absent from that source
file; the spec requires `WIND_UP_TIME < MAX_CHARGE_TIME` and the tests pin it
at 0.5 s. -/
def WIND_UP_TIME : ℚ := 1/2

/-- Modelled from the spec: the `windUpProgress` field is absent from
src/src/engine/Fighter.ts (only the test-suites read
`fighter.windUpProgress`); this records the two progress values a charging
fighter exposes. -/
structure ChargingView where
  chargeLevel : ℚ
  windUpProgress : ℚ
  deriving DecidableEq, Repr

/-- Modelled from the spec (§4.2): while CHARGING and still held at elapsed
time `t`, `chargeLevel = min(t / MAX_CHARGE_TIME, 1)` and
`windUpProgress = min(t / WIND_UP_TIME, 1)`. -/
def chargingTick (t : ℚ) : ChargingView :=
  { chargeLevel := min (t / MAX_CHARGE_TIME) 1
  , windUpProgress := min (t / WIND_UP_TIME) 1 }

/-- C5 (spec-modelled): while charging from a fresh start, `windUpProgress`
stays in [0, 1] and equals `min(elapsed / WIND_UP_TIME, 1)`; at
`t = WIND_UP_TIME` it is exactly 1 while `chargeLevel` is only
`WIND_UP_TIME / MAX_CHARGE_TIME < 1`. -/
theorem windup_saturates_before_charge (t : ℚ) (h0 : 0 ≤ t) :
    0 ≤ (chargingTick t).windUpProgress ∧
    (chargingTick t).windUpProgress ≤ 1 ∧
    (chargingTick t).windUpProgress = min (t / WIND_UP_TIME) 1 ∧
    (t = WIND_UP_TIME →
      (chargingTick t).windUpProgress = 1 ∧
      (chargingTick t).chargeLevel = WIND_UP_TIME / MAX_CHARGE_TIME ∧
      WIND_UP_TIME / MAX_CHARGE_TIME < 1) := by
  refine ⟨le_min (div_nonneg h0 (by norm_num [WIND_UP_TIME])) (by norm_num),
          min_le_right _ _, rfl, ?_⟩
  rintro rfl
  refine ⟨?_, ?_, ?_⟩ <;>
    norm_num [chargingTick, WIND_UP_TIME, MAX_CHARGE_TIME]

/-- Witness for C5 at `t = WIND_UP_TIME`. -/
theorem windup_saturates_before_charge_witness :
    (chargingTick WIND_UP_TIME).windUpProgress = 1 ∧
    (chargingTick WIND_UP_TIME).chargeLevel = WIND_UP_TIME / MAX_CHARGE_TIME ∧
    WIND_UP_TIME / MAX_CHARGE_TIME < 1 :=
  (windup_saturates_before_charge WIND_UP_TIME
    (by norm_num [WIND_UP_TIME])).2.2.2 rfl

/-! ## C6 — jump arc (modelled from the spec) -/

/-- Modelled from the spec: `JUMP_VELOCITY` is imported by the jump
test-suites from Constants.ts but absent from that source file; the tests'
peak-height comment (`600^2 / (2*1800)`) pins it at 600. -/
def JUMP_VELOCITY : ℚ := 600

/-- Modelled from the spec: `GRAVITY` is imported by the jump test-suites
from Constants.ts but absent from that source file; the tests pin it at
1800. -/
def GRAVITY : ℚ := 1800

/-- Modelled from the spec: the states of the jump-capable fighter variant
(§4.2 rule 2), which is absent from src/src/engine/Fighter.ts — only the
jump test-suites exercise a `JUMPING` state. -/
inductive JState where
  | IDLE
  | MOVING
  | JUMPING
  deriving DecidableEq, Repr

/-- Modelled from the spec: the jump-relevant fields of the jump-capable
fighter variant (screen coordinates: larger `y` is lower; `GROUND_Y` is the
ground). -/
structure FighterJ where
  x : ℚ
  y : ℚ
  vy : ℚ
  grounded : Bool
  state : JState
  deriving DecidableEq, Repr

/-- Modelled from the spec (§4.2 rules 2-3): a grounded IDLE/MOVING fighter
with `input.y > 0.5` starts a jump (upward initial velocity, leaves the
ground on the same frame, as the tests require); while airborne, velocity
gains `GRAVITY * dt` downward each tick, position integrates from velocity,
and jump input is ignored (no double jump); touching or passing the ground
clamps `y = GROUND_Y`, zeroes the velocity and returns to IDLE.  Horizontal
input stays effective throughout. -/
def jumpTick (f : FighterJ) (dt : ℚ) (input : Input) : FighterJ :=
  if f.grounded ∧ (f.state = .IDLE ∨ f.state = .MOVING) ∧ input.y > 1/2 then
    { f with state := .JUMPING,
             vy := -JUMP_VELOCITY,
             y := f.y + -JUMP_VELOCITY * dt,
             x := f.x + input.x * MOVE_SPEED * dt,
             grounded := false }
  else if ¬ f.grounded then
    let vy := f.vy + GRAVITY * dt
    let y := f.y + vy * dt
    if y ≥ GROUND_Y then
      { f with y := GROUND_Y, vy := 0, grounded := true, state := .IDLE,
               x := f.x + input.x * MOVE_SPEED * dt }
    else
      { f with y := y, vy := vy, x := f.x + input.x * MOVE_SPEED * dt }
  else
    if input.x ≠ 0 ∧ (f.state = .IDLE ∨ f.state = .MOVING) then
      { f with state := .MOVING, x := f.x + input.x * MOVE_SPEED * dt }
    else if f.state = .MOVING then { f with state := .IDLE }
    else f

/-- A grounded IDLE fighter standing on the ground at x = 400. -/
def jumpStart : FighterJ := ⟨400, GROUND_Y, 0, true, .IDLE⟩

/-- Jump input (`y = 1`), held on every frame of the run. -/
def jumpInput : Input := ⟨0, 1, false, false⟩

/-- The modelled trajectory at `dt = 1/10` with jump input held every frame. -/
def jumpRun : Nat → FighterJ
  | 0 => jumpStart
  | n + 1 => jumpTick (jumpRun n) (1/10) jumpInput

lemma jumpRun_values :
    jumpRun 0 = ⟨400, 900, 0, true, .IDLE⟩ ∧
    jumpRun 1 = ⟨400, 840, -600, false, .JUMPING⟩ ∧
    jumpRun 2 = ⟨400, 798, -420, false, .JUMPING⟩ ∧
    jumpRun 3 = ⟨400, 774, -240, false, .JUMPING⟩ ∧
    jumpRun 4 = ⟨400, 768, -60, false, .JUMPING⟩ ∧
    jumpRun 5 = ⟨400, 780, 120, false, .JUMPING⟩ ∧
    jumpRun 6 = ⟨400, 810, 300, false, .JUMPING⟩ ∧
    jumpRun 7 = ⟨400, 858, 480, false, .JUMPING⟩ ∧
    jumpRun 8 = ⟨400, 900, 0, true, .IDLE⟩ := by
  refine ⟨?_, ?_, ?_, ?_, ?_, ?_, ?_, ?_, ?_⟩ <;>
    norm_num +decide [jumpRun, jumpStart, jumpTick, jumpInput, GROUND_Y,
      JUMP_VELOCITY, GRAVITY, MOVE_SPEED]

/-- C6 (spec-modelled): holding jump from the grounded IDLE state yields the
state sequence IDLE→JUMPING→IDLE; the vertical position leaves ground level
on the first frame, descends strictly to a single extremum (frame 4 of the
`dt = 1/10` run), rises strictly back, and lands at exactly `GROUND_Y`; and
while airborne the tick ignores the jump input entirely (any two inputs that
agree on `x` produce the same next state), so no second jump is processed
even though jump input is re-asserted on every frame of the run. -/
theorem jump_round_trip :
    ((jumpRun 0).state = .IDLE ∧ (jumpRun 0).y = GROUND_Y ∧ (jumpRun 0).grounded = true) ∧
    ((jumpRun 1).state = .JUMPING ∧ (jumpRun 1).y < GROUND_Y) ∧
    (∀ k, 1 ≤ k → k ≤ 7 → (jumpRun k).state = .JUMPING ∧ (jumpRun k).grounded = false) ∧
    (∀ k, k ≤ 3 → (jumpRun (k + 1)).y < (jumpRun k).y) ∧
    (∀ k, 4 ≤ k → k ≤ 7 → (jumpRun k).y < (jumpRun (k + 1)).y) ∧
    ((jumpRun 8).state = .IDLE ∧ (jumpRun 8).y = GROUND_Y ∧ (jumpRun 8).grounded = true) ∧
    (∀ (f : FighterJ) (dt : ℚ) (i1 i2 : Input), f.grounded = false → i1.x = i2.x →
        jumpTick f dt i1 = jumpTick f dt i2) := by
  obtain ⟨h0, h1, h2, h3, h4, h5, h6, h7, h8⟩ := jumpRun_values
  refine ⟨?_, ?_, ?_, ?_, ?_, ?_, ?_⟩
  · rw [h0]
    exact ⟨rfl, by norm_num [GROUND_Y], rfl⟩
  · rw [h1]
    exact ⟨rfl, by norm_num [GROUND_Y]⟩
  · intro k hk1 hk7
    interval_cases k
    · rw [h1]; exact ⟨rfl, rfl⟩
    · rw [h2]; exact ⟨rfl, rfl⟩
    · rw [h3]; exact ⟨rfl, rfl⟩
    · rw [h4]; exact ⟨rfl, rfl⟩
    · rw [h5]; exact ⟨rfl, rfl⟩
    · rw [h6]; exact ⟨rfl, rfl⟩
    · rw [h7]; exact ⟨rfl, rfl⟩
  · intro k hk3
    interval_cases k
    · rw [h0, h1]; norm_num
    · rw [h1, h2]; norm_num
    · rw [h2, h3]; norm_num
    · rw [h3, h4]; norm_num
  · intro k hk4 hk7
    interval_cases k
    · rw [h4, h5]; norm_num
    · rw [h5, h6]; norm_num
    · rw [h6, h7]; norm_num
    · rw [h7, h8]; norm_num
  · rw [h8]
    exact ⟨rfl, by norm_num [GROUND_Y], rfl⟩
  · intro f dt i1 i2 hg hx
    simp only [jumpTick, hg, hx]
    norm_num

/-- Witness for C6's quantified conjuncts at concrete frames and a concrete
airborne fighter. -/
theorem jump_round_trip_witness :
    ((jumpRun 2).state = .JUMPING ∧ (jumpRun 2).grounded = false) ∧
    (jumpRun 3).y < (jumpRun 2).y ∧
    (jumpRun 5).y < (jumpRun 6).y ∧
    jumpTick ⟨400, 840, -600, false, .JUMPING⟩ (1/10) jumpInput =
      jumpTick ⟨400, 840, -600, false, .JUMPING⟩ (1/10) releaseNeutral :=
  ⟨jump_round_trip.2.2.1 2 (by norm_num) (by norm_num),
   jump_round_trip.2.2.2.1 2 (by norm_num),
   jump_round_trip.2.2.2.2.1 5 (by norm_num) (by norm_num),
   jump_round_trip.2.2.2.2.2.2 _ _ _ _ rfl rfl⟩

end PoFight
